import Mathlib

/-!
Shallow embedding of the `smol-potat-macro` attribute macros
(`src/smol-potat-macro/src/lib.rs`): the `Opts` attribute-argument parser
and the `main`, `test` and `bench` procedural macros, together with the
shape of the token streams they emit.
-/

namespace SmolPotat

/-- An integer literal token (`syn::LitInt`) as the attribute parser sees
it: an optional leading minus sign and the base-10 magnitude of the
digits (`base10_parse` ignores suffixes and underscores). -/
structure IntLit where
  neg : Bool
  val : Nat
deriving DecidableEq, Repr

/-- The literal on the right-hand side of a `key = value` attribute
argument (`syn::Lit`): an integer literal, a string literal, or any
other literal kind (bool, float, char, byte string). -/
inductive Lit where
| int (l : IntLit)
| str (s : String)
| other
deriving DecidableEq, Repr

/-- The key position of a `key = value` attribute argument
(`syn::MetaNameValue.path`): either a single identifier
(`path.get_ident()` returns `Some`) or a longer path (`None`). -/
inductive Key where
| ident (s : String)
| multiSegment
deriving DecidableEq, Repr

/-- One `key = value` attribute argument (`syn::MetaNameValue`). -/
structure MetaNameValue where
  path : Key
  lit : Lit
deriving DecidableEq, Repr

/-- A module path (`syn::Path`): whether it starts with `::`, and its
identifier segments. -/
structure SynPath where
  leadingColon : Bool
  segments : List String
deriving DecidableEq, Repr

/-- Rust `str::to_lowercase`, applied by `Opts::parse` to the key before
matching (`ident.to_string().to_lowercase()`); the keys are ASCII
identifiers, for which lowercasing is characterwise. -/
def lowercase (s : String) : String := String.mk (s.data.map Char.toLower)

/-- Whether a string is a plain identifier: nonempty, starting with a
letter or underscore, continuing with letters, digits or underscores. -/
def isIdentStr (s : String) : Bool :=
  match s.data with
  | [] => false
  | c :: cs => (c.isAlpha || c = '_') && cs.all fun d => d.isAlphanum || d = '_'

/-- Split a character list into the `::`-separated segments of a module
path, accumulating the current segment in reverse. -/
def pathSegs : List Char → List Char → List String
| [], acc => [String.mk acc.reverse]
| ':' :: ':' :: rest, acc => String.mk acc.reverse :: pathSegs rest []
| c :: rest, acc => pathSegs rest (c :: acc)

/-- Modelled from the spec: the external `syn` crate parses the contents
of the `crate = "..."` string literal as a module path (`path.parse()?`
at src/smol-potat-macro/src/lib.rs line 302); the spec requires the
value to "parse as a valid module path". Modelled as an optional leading
`::` followed by `::`-separated identifier segments. -/
def synParsePath (s : String) : Option SynPath :=
  match s.data with
  | ':' :: ':' :: rest =>
      let segs := pathSegs rest []
      if segs.all isIdentStr then some ⟨true, segs⟩ else none
  | cs =>
      let segs := pathSegs cs []
      if segs.all isIdentStr then some ⟨false, segs⟩ else none

/-- The default crate root `::smol_potat`
(`syn::parse2(quote!(::smol_potat)).unwrap()`). -/
def defaultCrateRoot : SynPath := ⟨true, ["smol_potat"]⟩

/-- The failure cases of `Opts::parse`, one constructor per `Err` site in
the source (`threadsNotNonZeroU32` is the propagated
`base10_parse::<NonZeroU32>` failure, `crateBadPath` the propagated
`syn::Path` parse failure; `unknown` carries the lowercased key the
source binds at the fall-through match arm). -/
inductive OptErr where
| notSingleIdent
| duplicateThreads
| threadsNotNonZeroU32
| threadsNotInt
| duplicateCrate
| crateBadPath
| crateNotStr
| unknown (key : String)
deriving DecidableEq, Repr

/-- The diagnostic message of each `Opts::parse` failure exactly as the
string literal appears in the source, including the source's typo in the
duplicate-threads message and the unfilled `\x7b\x7d` placeholder in the
unknown-attribute message; `none` for the two failures whose message is
produced by the external library (`NonZeroU32`/path parsing). -/
def OptErr.message : OptErr → Option String
| .notSingleIdent => some "Must be a single ident"
| .duplicateThreads => some "multiple threads argments"
| .threadsNotNonZeroU32 => none
| .threadsNotInt => some "threads argument must be an integer"
| .duplicateCrate => some "multiple crate arguments"
| .crateBadPath => none
| .crateNotStr => some "crate argument must be a string"
| .unknown _ => some "unknown attribute \x7b\x7d, expected `threads` or `crate`"

/-- The spec's `InvalidThreadsValue` diagnostic class: the `threads`
value is not an integer literal, or does not parse as a positive 32-bit
integer. -/
def OptErr.isInvalidThreadsValue : OptErr → Bool
| .threadsNotNonZeroU32 => true
| .threadsNotInt => true
| _ => false

/-- The spec's `DuplicateOption` diagnostic class: one of the two
duplicate-key failures. -/
def OptErr.isDuplicateOption : OptErr → Bool
| .duplicateThreads => true
| .duplicateCrate => true
| _ => false

/-- `expr.base10_parse::<std::num::NonZeroU32>()`: succeeds exactly on an
unsigned integer literal whose value lies in `1 ..= 4294967295`. -/
def base10ParseNonZeroU32 (l : IntLit) : Option Nat :=
  if l.neg = false ∧ 1 ≤ l.val ∧ l.val ≤ 4294967295 then some l.val else none

/-- The parsed attribute options (`struct Opts`); the span paired with
the thread count in the source is dropped, since spans do not affect the
emitted tokens. -/
structure Opts where
  crate_root : SynPath
  threads : Option Nat
deriving DecidableEq, Repr

/-- The loop of `Opts::parse`, processing the remaining `key = value`
arguments with the accumulated `crate` and `threads` state. Keys are
lowercased before matching; for `threads` the duplicate check runs
before the value is range-checked, and only once the value is an integer
literal; for `crate` the duplicate check runs before the path parse, and
only once the value is a string literal. -/
def parseArgs : List MetaNameValue → Option SynPath → Option Nat → Except OptErr Opts
| [], crate_root, threads => .ok ⟨crate_root.getD defaultCrateRoot, threads⟩
| nv :: rest, crate_root, threads =>
  match nv.path with
  | .multiSegment => .error .notSingleIdent
  | .ident s =>
    match lowercase s, nv.lit with
    | "threads", .int l =>
        if threads.isSome then .error .duplicateThreads
        else
          match base10ParseNonZeroU32 l with
          | some n => parseArgs rest crate_root (some n)
          | none => .error .threadsNotNonZeroU32
    | "threads", _ => .error .threadsNotInt
    | "crate", .str p =>
        if crate_root.isSome then .error .duplicateCrate
        else
          match synParsePath p with
          | some pa => parseArgs rest (some pa) threads
          | none => .error .crateBadPath
    | "crate", _ => .error .crateNotStr
    | name, _ => .error (.unknown name)

/-- `Opts::parse` over the whole attribute argument list, starting from
no crate root and no thread count; an absent crate root defaults to
`::smol_potat`. -/
def Opts.parse (args : List MetaNameValue) : Except OptErr Opts :=
  parseArgs args none none

/-- The pieces of the annotated function (`syn::ItemFn`) that the macros
read: outer attributes, asyncness, name, parameter list, return type and
body, the latter four as opaque token strings. -/
structure ItemFn where
  attrs : List String
  asyncness : Bool
  name : String
  inputs : List String
  output : String
  block : String
deriving DecidableEq, Repr

/-- The thread-count expression substituted for `#threads` in the
multi-threaded template: either the literal from the attribute, or (with
the `auto` cargo feature) `::std::cmp::max(#crate_root::num_cpus::get(), 1)`. -/
inductive ThreadsExpr where
| lit (n : Nat)
| autoCpus (crate_root : SynPath)
deriving DecidableEq, Repr

/-- One statement of a generated function body; each constructor is one
statement of the corresponding `quote!` template, with the crate-root
path substituted where the template writes `#crate_root::...`:
`nestedAsyncMain` is `#(#attrs)* async fn main() #ret \x7b #body \x7d`,
`letEx` is `let ex = #crate_root::async_executor::Executor::new();`,
`letSignalShutdown` is
`let (signal, shutdown) = #crate_root::async_channel::unbounded::<()>();`,
`letThreads` is `let threads = #threads;`, `letParallelRun` is the
`let (_, r) = #crate_root::easy_parallel::Parallel::new()...` statement
running the executor on each worker and block_on-ing `main().await` then
dropping the signal on the current thread, `exprR` the trailing `r`,
`exprBlockOnMain` is `#crate_root::block_on(main())`,
`exprBlockOnAsyncBody` is `#crate_root::block_on(async \x7b #body \x7d)`
and `letBenchIter` is the `let _ = b.iter(|| ...)` statement of the
bench template. -/
inductive GenStmt where
| nestedAsyncMain (attrs : List String) (output : String) (body : String)
| letEx (crate_root : SynPath)
| letSignalShutdown (crate_root : SynPath)
| letThreads (t : ThreadsExpr)
| letParallelRun (crate_root : SynPath)
| exprR
| exprBlockOnMain (crate_root : SynPath)
| exprBlockOnAsyncBody (crate_root : SynPath) (body : String)
| letBenchIter (crate_root : SynPath) (body : String)
deriving DecidableEq, Repr

/-- The function emitted by a macro: its outer attributes (the harness
markers prepended by the test/bench templates, then the preserved user
attributes where the template puts them on the outer function), name,
parameter list, return type and body statements. -/
structure GenFn where
  attrs : List String
  name : String
  inputs : List String
  output : String
  stmts : List GenStmt
deriving DecidableEq, Repr

/-- The failure cases of the three macros: an attribute-argument parse
failure (from `parse_macro_input!(attr as Opts)`), or one of the
signature checks. -/
inductive MacroErr where
| optErr (e : OptErr)
| wrongName
| unexpectedParameters
| notAsync
| threadsNotAllowed
deriving DecidableEq, Repr

/-- The part of the `main` macro after the options have been parsed:
the name, parameter and asyncness checks in source order, then the
choice between the multi-threaded template (explicit `threads`, or the
`auto` feature) and the plain `block_on` template. -/
def mainAfterOpts (auto : Bool) (opts : Opts) (input : ItemFn) :
    Except MacroErr GenFn :=
  if input.name ≠ "main" then .error .wrongName
  else if input.inputs.isEmpty = false then .error .unexpectedParameters
  else if input.asyncness = false then .error .notAsync
  else
    let threads : Option ThreadsExpr :=
      match opts.threads with
      | some num => some (.lit num)
      | none => if auto then some (.autoCpus opts.crate_root) else none
    match threads with
    | some t =>
        .ok ⟨[], "main", [], input.output,
          [.nestedAsyncMain input.attrs input.output input.block,
           .letEx opts.crate_root, .letSignalShutdown opts.crate_root,
           .letThreads t, .letParallelRun opts.crate_root, .exprR]⟩
    | none =>
        .ok ⟨[], "main", [], input.output,
          [.nestedAsyncMain input.attrs input.output input.block,
           .exprBlockOnMain opts.crate_root]⟩

/-- The `main` procedural macro: the attribute arguments are parsed
first (`parse_macro_input!(attr as Opts)` precedes every signature
check), then `mainAfterOpts` runs. `auto` is the state of the crate's
`auto` cargo feature, off by default. -/
def mainMacro (auto : Bool) (attr : List MetaNameValue) (input : ItemFn) :
    Except MacroErr GenFn :=
  match Opts.parse attr with
  | .error e => .error (.optErr e)
  | .ok opts => mainAfterOpts auto opts input

/-- The part of the `test` macro after the options have been parsed: a
supplied `threads` option is rejected, then the parameter and asyncness
checks, then the `#[test] #(#attrs)* fn #name() #ret \x7b ... \x7d`
template. -/
def testAfterOpts (opts : Opts) (input : ItemFn) : Except MacroErr GenFn :=
  if opts.threads.isSome then .error .threadsNotAllowed
  else if input.inputs.isEmpty = false then .error .unexpectedParameters
  else if input.asyncness = false then .error .notAsync
  else
    .ok ⟨"#[test]" :: input.attrs, input.name, [], input.output,
      [.exprBlockOnAsyncBody opts.crate_root input.block]⟩

/-- The `test` procedural macro: options parsed first, then
`testAfterOpts`. -/
def testMacro (attr : List MetaNameValue) (input : ItemFn) :
    Except MacroErr GenFn :=
  match Opts.parse attr with
  | .error e => .error (.optErr e)
  | .ok opts => testAfterOpts opts input

/-- The part of the `bench` macro after the options have been parsed:
same checks as `test`, then the
`#[bench] #(#attrs)* fn #name(b: &mut ::test::Bencher) #ret \x7b ... \x7d`
template. -/
def benchAfterOpts (opts : Opts) (input : ItemFn) : Except MacroErr GenFn :=
  if opts.threads.isSome then .error .threadsNotAllowed
  else if input.inputs.isEmpty = false then .error .unexpectedParameters
  else if input.asyncness = false then .error .notAsync
  else
    .ok ⟨"#[bench]" :: input.attrs, input.name, ["b: &mut ::test::Bencher"],
      input.output, [.letBenchIter opts.crate_root input.block]⟩

/-- The `bench` procedural macro: options parsed first, then
`benchAfterOpts`. -/
def benchMacro (attr : List MetaNameValue) (input : ItemFn) :
    Except MacroErr GenFn :=
  match Opts.parse attr with
  | .error e => .error (.optErr e)
  | .ok opts => benchAfterOpts opts input

/-- The compile-error message of each `main`-macro failure whose message
is a string literal in the source (`test` and `bench` share the
missing-async message verbatim and use their own wording for
parameters/threads). -/
def MacroErr.mainMessage : MacroErr → Option String
| .optErr e => e.message
| .wrongName => some "only the main function can be tagged with #[smol::main]"
| .unexpectedParameters => some "the main function cannot take parameters"
| .notAsync => some "the async keyword is missing from the function declaration"
| .threadsNotAllowed => none

/-! Stepping lemmas for the option-parsing loop. -/

/-- Stepping `Opts::parse` over a `threads = <int>` argument when no
thread count has been recorded yet: the result is decided by the
`NonZeroU32` parse of the literal. -/
theorem parseArgs_threads_int (l : IntLit) (rest : List MetaNameValue)
    (cr : Option SynPath) :
    parseArgs (⟨.ident "threads", .int l⟩ :: rest) cr none =
      match base10ParseNonZeroU32 l with
      | some n => parseArgs rest cr (some n)
      | none => .error .threadsNotNonZeroU32 := rfl

/-- Stepping `Opts::parse` over a `threads = <int>` argument when a
thread count has already been recorded: the duplicate error fires before
the value is examined. -/
theorem parseArgs_threads_int_dup (l : IntLit) (rest : List MetaNameValue)
    (cr : Option SynPath) (n : Nat) :
    parseArgs (⟨.ident "threads", .int l⟩ :: rest) cr (some n) =
      .error .duplicateThreads := rfl

/-- Stepping `Opts::parse` over a `crate = "<path>"` argument when no
crate root has been recorded yet: the result is decided by the path
parse of the string. -/
theorem parseArgs_crate_str (p : String) (rest : List MetaNameValue)
    (th : Option Nat) :
    parseArgs (⟨.ident "crate", .str p⟩ :: rest) none th =
      match synParsePath p with
      | some pa => parseArgs rest (some pa) th
      | none => .error .crateBadPath := rfl

/-- Stepping `Opts::parse` over a `crate = "<path>"` argument when a
crate root has already been recorded: the duplicate error fires before
the string is parsed. -/
theorem parseArgs_crate_str_dup (p : String) (rest : List MetaNameValue)
    (pa : SynPath) (th : Option Nat) :
    parseArgs (⟨.ident "crate", .str p⟩ :: rest) (some pa) th =
      .error .duplicateCrate := rfl

/-! The claims. -/

/-- C1: an async function named `main` with no parameters, expanded with
no attribute options (and the default feature set), expands successfully
into a function with the same name and return type whose body declares
the original as a nested async function carrying the original attributes
and body, and ends by blocking on running it
(`::smol_potat::block_on(main())`), returning its result. -/
theorem c1_main_default_expansion (attrs : List String)
    (output block : String) :
    mainMacro false [] ⟨attrs, true, "main", [], output, block⟩ =
      .ok ⟨[], "main", [], output,
        [.nestedAsyncMain attrs output block,
         .exprBlockOnMain defaultCrateRoot]⟩ := rfl

/-- C2 as stated fails: a function that lacks `async` but is named `foo`
is rejected by the `main` macro with the wrong-name diagnostic, not the
missing-async one, because the name check runs first. -/
theorem c2_counterexample :
    mainMacro false [] ⟨[], false, "foo", [], "", "body"⟩ =
      .error .wrongName ∧
    MacroErr.wrongName ≠ MacroErr.notAsync := ⟨rfl, by decide⟩

/-- C2 amended: a function lacking `async` whose earlier checks pass
(options parse; for `main`: named `main` with no parameters; for
`test`/`bench`: no parameters and no `threads` option) is rejected with
the missing-async diagnostic by all three macros. -/
theorem c2_not_async (auto : Bool) (args : List MetaNameValue)
    (opts : Opts) (input : ItemFn) (hp : Opts.parse args = .ok opts)
    (hasync : input.asyncness = false) (hinputs : input.inputs = []) :
    (input.name = "main" → mainMacro auto args input = .error .notAsync) ∧
    (opts.threads = none →
      testMacro args input = .error .notAsync ∧
      benchMacro args input = .error .notAsync) := by
  refine ⟨fun hname => ?_, fun hth => ⟨?_, ?_⟩⟩
  · simp [mainMacro, hp, mainAfterOpts, hname, hinputs, hasync]
  · simp [testMacro, hp, testAfterOpts, hth, hinputs, hasync]
  · simp [benchMacro, hp, benchAfterOpts, hth, hinputs, hasync]

/-- Witness for the amended C2 at a concrete non-async `main`. -/
theorem c2_not_async_witness :
    mainMacro false [] ⟨[], false, "main", [], "", "b"⟩ =
      .error .notAsync :=
  (c2_not_async false [] ⟨defaultCrateRoot, none⟩
    ⟨[], false, "main", [], "", "b"⟩ rfl rfl rfl).1 rfl

/-- C3: a `threads` option whose value is a zero or negative integer
literal, or not an integer literal at all, makes option parsing fail
with a diagnostic of the spec's InvalidThreadsValue class; in particular
`threads = 0` fails with the `NonZeroU32` parse error. -/
theorem c3_invalid_threads_value (v : Lit)
    (h : (∃ l, v = .int l ∧ (l.neg = true ∨ l.val = 0)) ∨ ∀ l, v ≠ .int l) :
    (∃ e, Opts.parse [⟨.ident "threads", v⟩] = .error e ∧
        e.isInvalidThreadsValue = true) ∧
    Opts.parse [⟨.ident "threads", .int ⟨false, 0⟩⟩] =
      .error .threadsNotNonZeroU32 := by
  refine ⟨?_, rfl⟩
  rcases h with ⟨l, rfl, hl⟩ | hne
  · refine ⟨.threadsNotNonZeroU32, ?_, rfl⟩
    have hb : base10ParseNonZeroU32 l = none := by
      rcases hl with hn | hv
      · simp [base10ParseNonZeroU32, hn]
      · simp [base10ParseNonZeroU32, hv]
    simp only [Opts.parse]
    rw [parseArgs_threads_int, hb]
  · match v, hne with
    | .str s, _ => exact ⟨.threadsNotInt, rfl, rfl⟩
    | .other, _ => exact ⟨.threadsNotInt, rfl, rfl⟩
    | .int l, hne => exact absurd rfl (hne l)

/-- Witness for C3 at the concrete option `threads = 0`. -/
theorem c3_invalid_threads_value_witness :
    (∃ e, Opts.parse [⟨.ident "threads", Lit.int ⟨false, 0⟩⟩] =
        .error e ∧ e.isInvalidThreadsValue = true) ∧
    Opts.parse [⟨.ident "threads", Lit.int ⟨false, 0⟩⟩] =
      .error .threadsNotNonZeroU32 :=
  c3_invalid_threads_value (.int ⟨false, 0⟩)
    (Or.inl ⟨⟨false, 0⟩, rfl, Or.inr rfl⟩)

/-- C4 as stated fails: supplying the `crate` option (an argument other
than `threads`) to the `test` macro is not an error: expansion succeeds,
and the generated code is rooted at the given path. -/
theorem c4_counterexample :
    testMacro [⟨.ident "crate", .str "a"⟩] ⟨[], true, "t", [], "", "x"⟩ =
      .ok ⟨["#[test]"], "t", [], "",
        [.exprBlockOnAsyncBody ⟨false, ["a"]⟩ "x"]⟩ := rfl

/-- C4 amended: on `test` and `bench`, a `threads = N` option with `N` a
positive integer in the 32-bit range fails with the threads-not-allowed
diagnostic; `threads = 0` fails earlier, at option parsing, with the
`NonZeroU32` parse error; an unrecognized key fails at option parsing
with the unknown-attribute error; but a `crate` option is accepted. -/
theorem c4_test_bench_args (l : IntLit) (input : ItemFn)
    (hl : l.neg = false ∧ 1 ≤ l.val ∧ l.val ≤ 4294967295)
    (hasync : input.asyncness = true) (hinp : input.inputs = []) :
    testMacro [⟨.ident "threads", .int l⟩] input =
      .error .threadsNotAllowed ∧
    benchMacro [⟨.ident "threads", .int l⟩] input =
      .error .threadsNotAllowed ∧
    testMacro [⟨.ident "threads", .int ⟨false, 0⟩⟩] input =
      .error (.optErr .threadsNotNonZeroU32) ∧
    testMacro [⟨.ident "other", .int l⟩] input =
      .error (.optErr (.unknown "other")) ∧
    testMacro [⟨.ident "crate", .str "a"⟩] input =
      .ok ⟨"#[test]" :: input.attrs, input.name, [], input.output,
        [.exprBlockOnAsyncBody ⟨false, ["a"]⟩ input.block]⟩ := by
  obtain ⟨hneg, h1, h2⟩ := hl
  have hb : base10ParseNonZeroU32 l = some l.val := by
    simp [base10ParseNonZeroU32, hneg, h1, h2]
  have hp : Opts.parse [⟨.ident "threads", .int l⟩] =
      .ok ⟨defaultCrateRoot, some l.val⟩ := by
    simp only [Opts.parse]
    rw [parseArgs_threads_int, hb]
    rfl
  have hc : Opts.parse [⟨.ident "crate", .str "a"⟩] =
      .ok ⟨⟨false, ["a"]⟩, none⟩ := rfl
  refine ⟨?_, ?_, rfl, rfl, ?_⟩
  · simp [testMacro, hp, testAfterOpts]
  · simp [benchMacro, hp, benchAfterOpts]
  · simp [testMacro, hc, testAfterOpts, hinp, hasync]

/-- Witness for the amended C4 at `threads = 4` and a concrete async
test function. -/
theorem c4_test_bench_args_witness :
    testMacro [⟨.ident "threads", .int ⟨false, 4⟩⟩]
        ⟨[], true, "t", [], "", "x"⟩ = .error .threadsNotAllowed ∧
    benchMacro [⟨.ident "threads", .int ⟨false, 4⟩⟩]
        ⟨[], true, "t", [], "", "x"⟩ = .error .threadsNotAllowed ∧
    testMacro [⟨.ident "threads", .int ⟨false, 0⟩⟩]
        ⟨[], true, "t", [], "", "x"⟩ =
      .error (.optErr .threadsNotNonZeroU32) ∧
    testMacro [⟨.ident "other", .int ⟨false, 4⟩⟩]
        ⟨[], true, "t", [], "", "x"⟩ =
      .error (.optErr (.unknown "other")) ∧
    testMacro [⟨.ident "crate", .str "a"⟩] ⟨[], true, "t", [], "", "x"⟩ =
      .ok ⟨"#[test]" :: [], "t", [], "",
        [.exprBlockOnAsyncBody ⟨false, ["a"]⟩ "x"]⟩ :=
  c4_test_bench_args ⟨false, 4⟩ ⟨[], true, "t", [], "", "x"⟩
    ⟨rfl, by decide, by decide⟩ rfl rfl

/-- C5 as stated fails: `threads` supplied twice, the second time with a
string value, fails with the threads-type error (of the spec's
InvalidThreadsValue class), not DuplicateOption: the duplicate check
only runs once the second value is an integer literal. -/
theorem c5_counterexample :
    Opts.parse [⟨.ident "threads", .int ⟨false, 1⟩⟩,
                ⟨.ident "threads", .str "x"⟩] = .error .threadsNotInt ∧
    OptErr.threadsNotInt.isDuplicateOption = false := ⟨rfl, rfl⟩

/-- C5 amended: when the same key is supplied twice with values of the
accepted literal kind (integer for `threads`, string for `crate`) and
the first value is itself accepted, option parsing fails with a
DuplicateOption diagnostic, irrespective of whether the two values are
equal. -/
theorem c5_duplicate_option (a b : IntLit) (p q : String) (pa : SynPath)
    (ha : a.neg = false ∧ 1 ≤ a.val ∧ a.val ≤ 4294967295)
    (hp : synParsePath p = some pa) :
    (Opts.parse [⟨.ident "threads", .int a⟩,
                 ⟨.ident "threads", .int b⟩] =
        .error .duplicateThreads ∧
      Opts.parse [⟨.ident "crate", .str p⟩, ⟨.ident "crate", .str q⟩] =
        .error .duplicateCrate) ∧
    OptErr.duplicateThreads.isDuplicateOption = true ∧
    OptErr.duplicateCrate.isDuplicateOption = true := by
  obtain ⟨hneg, h1, h2⟩ := ha
  have hb : base10ParseNonZeroU32 a = some a.val := by
    simp [base10ParseNonZeroU32, hneg, h1, h2]
  refine ⟨⟨?_, ?_⟩, rfl, rfl⟩
  · simp only [Opts.parse]
    rw [parseArgs_threads_int, hb]
    rfl
  · simp only [Opts.parse]
    rw [parseArgs_crate_str, hp]
    rfl

/-- Witness for the amended C5 at `threads = 1, threads = 1` and
`crate = "a", crate = "b"`. -/
theorem c5_duplicate_option_witness :
    (Opts.parse [⟨.ident "threads", .int ⟨false, 1⟩⟩,
                 ⟨.ident "threads", .int ⟨false, 1⟩⟩] =
        .error .duplicateThreads ∧
      Opts.parse [⟨.ident "crate", .str "a"⟩,
                  ⟨.ident "crate", .str "b"⟩] =
        .error .duplicateCrate) ∧
    OptErr.duplicateThreads.isDuplicateOption = true ∧
    OptErr.duplicateCrate.isDuplicateOption = true :=
  c5_duplicate_option ⟨false, 1⟩ ⟨false, 1⟩ "a" "b" ⟨false, ["a"]⟩
    ⟨rfl, by decide, by decide⟩ rfl

/-- C6: an unrecognized key makes option parsing fail with the
unknown-attribute error carrying that key, but the emitted diagnostic
message is the fixed source string whose `\x7b\x7d` placeholder is never
filled: the message is identical for every offending key, so the
diagnostic does not name the key. -/
theorem c6_unknown_key_not_named :
    Opts.parse [⟨.ident "foo", .int ⟨false, 1⟩⟩] =
      .error (.unknown "foo") ∧
    Opts.parse [⟨.ident "bar", .int ⟨false, 1⟩⟩] =
      .error (.unknown "bar") ∧
    (OptErr.unknown "foo").message = (OptErr.unknown "bar").message ∧
    (OptErr.unknown "foo").message =
      some "unknown attribute \x7b\x7d, expected `threads` or `crate`" :=
  ⟨rfl, rfl, rfl, rfl⟩

/-- C7 as stated fails: on an input that fails both signature validation
(not async, not named `main`, and with a parameter) and option parsing
(unknown key), the reported diagnostic is the option-parsing one, not
the signature-validation one: options are parsed before any signature
check. -/
theorem c7_counterexample :
    mainMacro false [⟨.ident "bogus", .int ⟨false, 1⟩⟩]
        ⟨[], false, "foo", ["x: u8"], "", "y"⟩ =
      .error (.optErr (.unknown "bogus")) ∧
    MacroErr.optErr (.unknown "bogus") ≠ MacroErr.wrongName ∧
    MacroErr.optErr (.unknown "bogus") ≠ MacroErr.unexpectedParameters ∧
    MacroErr.optErr (.unknown "bogus") ≠ MacroErr.notAsync :=
  ⟨rfl, by decide, by decide, by decide⟩

/-- C7 amended: the option parser runs before the signature validator:
whenever the attribute argument list fails option parsing, each of the
three macros reports the option-parsing diagnostic, whatever the
function's signature. -/
theorem c7_opts_parsed_first (auto : Bool) (args : List MetaNameValue)
    (e : OptErr) (input : ItemFn) (h : Opts.parse args = .error e) :
    mainMacro auto args input = .error (.optErr e) ∧
    testMacro args input = .error (.optErr e) ∧
    benchMacro args input = .error (.optErr e) := by
  refine ⟨?_, ?_, ?_⟩ <;> simp [mainMacro, testMacro, benchMacro, h]

/-- Witness for the amended C7 at a concrete unknown key and non-async,
wrongly named function. -/
theorem c7_opts_parsed_first_witness :
    mainMacro false [⟨.ident "nope", .int ⟨false, 2⟩⟩]
        ⟨[], false, "g", ["y: u8"], "", "z"⟩ =
      .error (.optErr (.unknown "nope")) ∧
    testMacro [⟨.ident "nope", .int ⟨false, 2⟩⟩]
        ⟨[], false, "g", ["y: u8"], "", "z"⟩ =
      .error (.optErr (.unknown "nope")) ∧
    benchMacro [⟨.ident "nope", .int ⟨false, 2⟩⟩]
        ⟨[], false, "g", ["y: u8"], "", "z"⟩ =
      .error (.optErr (.unknown "nope")) :=
  c7_opts_parsed_first false [⟨.ident "nope", .int ⟨false, 2⟩⟩]
    (.unknown "nope") ⟨[], false, "g", ["y: u8"], "", "z"⟩ rfl

/-- C8: expansion is deterministic: two runs of the `main` macro on
identical attribute arguments and identical input functions produce
identical output: the expansion is a pure function of those two
arguments, with no other state. -/
theorem c8_deterministic (auto : Bool) (a1 a2 : List MetaNameValue)
    (i1 i2 : ItemFn) (ha : a1 = a2) (hi : i1 = i2) :
    mainMacro auto a1 i1 = mainMacro auto a2 i2 := by rw [ha, hi]

/-- Witness for C8 at a concrete valid invocation. -/
theorem c8_deterministic_witness :
    mainMacro false [] ⟨[], true, "main", [], "", "b"⟩ =
      mainMacro false [] ⟨[], true, "main", [], "", "b"⟩ :=
  c8_deterministic false [] [] ⟨[], true, "main", [], "", "b"⟩
    ⟨[], true, "main", [], "", "b"⟩ rfl rfl

/-- C9: the `threads` value is bounded by the unsigned 32-bit range: an
integer literal greater than 4294967295, although a positive integer, is
rejected by the `NonZeroU32` parse at option parsing, a failure of the
InvalidThreadsValue class. -/
theorem c9_threads_u32_bound (l : IntLit) (h : 4294967295 < l.val) :
    Opts.parse [⟨.ident "threads", .int l⟩] =
      .error .threadsNotNonZeroU32 ∧
    OptErr.threadsNotNonZeroU32.isInvalidThreadsValue = true := by
  refine ⟨?_, rfl⟩
  have hc : ¬ (l.neg = false ∧ 1 ≤ l.val ∧ l.val ≤ 4294967295) := by
    rintro ⟨-, -, hle⟩
    omega
  have hb : base10ParseNonZeroU32 l = none := by
    unfold base10ParseNonZeroU32
    rw [if_neg hc]
  simp only [Opts.parse]
  rw [parseArgs_threads_int, hb]

/-- Witness for C9 at `threads = 4294967296`. -/
theorem c9_threads_u32_bound_witness :
    Opts.parse [⟨.ident "threads", Lit.int ⟨false, 4294967296⟩⟩] =
      .error .threadsNotNonZeroU32 ∧
    OptErr.threadsNotNonZeroU32.isInvalidThreadsValue = true :=
  c9_threads_u32_bound ⟨false, 4294967296⟩ (by decide)

/-- C10: for `main` with an explicit `threads = 1`, the generated body
is the multi-threaded template (executor, shutdown channel, thread
count, parallel run against the shutdown signal with the main future on
the invoking thread), and the single-runtime `block_on` statement of the
default template appears nowhere in it. -/
theorem c10_threads_one_multi (auto : Bool) (attrs : List String)
    (output block : String) :
    mainMacro auto [⟨.ident "threads", .int ⟨false, 1⟩⟩]
        ⟨attrs, true, "main", [], output, block⟩ =
      .ok ⟨[], "main", [], output,
        [.nestedAsyncMain attrs output block,
         .letEx defaultCrateRoot, .letSignalShutdown defaultCrateRoot,
         .letThreads (.lit 1), .letParallelRun defaultCrateRoot,
         .exprR]⟩ ∧
    ∀ cr : SynPath, GenStmt.exprBlockOnMain cr ∉
      [GenStmt.nestedAsyncMain attrs output block,
       GenStmt.letEx defaultCrateRoot,
       GenStmt.letSignalShutdown defaultCrateRoot,
       GenStmt.letThreads (.lit 1),
       GenStmt.letParallelRun defaultCrateRoot, GenStmt.exprR] := by
  refine ⟨rfl, fun cr => ?_⟩
  simp

end SmolPotat
